import Mathlib

/-!
Verification of the view-transform and input-mapping core of the
tarkov-tactical-map repository (two near-duplicate React variants,
`part_000` = CollaborativeDrawingTool and `part_001` = RealTimeMapApp).

JavaScript numbers are IEEE doubles; every representable double is a
rational, and all the claims under scrutiny are about the exact arithmetic
the code performs, so the embedding uses `ℚ`.  The special value
`Infinity` of the fade timers is represented by a dedicated constructor
(`ExpireAt.inf`), and a missing (`undefined`) `expireAt` field by
`ExpireAt.undef`.  Division in `ℚ` is total (`x / 0 = 0`); the code only
divides by the zoom scale, which the viewport invariant keeps in `[1, 4]`.
-/

namespace TacticalMap

/-- A 2-D point (screen or world coordinates). -/
structure Pt where
  x : ℚ
  y : ℚ
  deriving DecidableEq, Repr

/-- Width/height of the background image (`backgroundImage.width/height`). -/
structure Extent where
  w : ℚ
  h : ℚ
  deriving DecidableEq, Repr

/-- The canvas element: its bounding rectangle origin (`rect.left/top`)
and its pixel size (`canvas.width/height`). -/
structure Canvas where
  left : ℚ
  top : ℚ
  width : ℚ
  height : ℚ
  deriving DecidableEq, Repr

/-- The viewport state owned by the component: `scale`, `panX`, `panY`
(part_001 stores the pan as one `{x, y}` record; same data). -/
structure Viewport where
  scale : ℚ
  panX : ℚ
  panY : ℚ
  deriving DecidableEq, Repr

/-- The four drawing tools. -/
inductive Tool where
  | pen
  | arrow
  | circle
  | emoji
  deriving DecidableEq, Repr

/-- Value of the optional `expireAt?: number | Infinity` field:
missing (`undefined`), the JS `Infinity`, or a finite number. -/
inductive ExpireAt where
  | undef
  | inf
  | fin (t : ℚ)
  deriving DecidableEq, Repr

/-- A `DrawAction` record.  The source field `end` is a Lean keyword and
is embedded as `endPt`. -/
structure DrawAction where
  userId : String
  userName : String
  color : String
  tool : Tool
  lineWidth : ℚ
  start : Pt
  endPt : Pt
  emoji : Option String
  expireAt : ExpireAt
  deriving DecidableEq, Repr

/-- Component-wise clamp used in specification statements:
clamp `x` into the interval `[lo, hi]`. -/
def clampQ (x lo hi : ℚ) : ℚ := min (max x lo) hi

/-- part_000 `clampPan(px, py, sc)`.  Reads the canvas (identity when the
canvas is not mounted) and the background image (identity when absent);
otherwise computes `minPan = 0`, `maxPan = bg - canvas/sc` floored at `0`,
and clamps each component with two sequential `if`s exactly as the source
does. -/
def clampPan0 (px py sc : ℚ) (canvas : Option Canvas) (bg : Option Extent) : ℚ × ℚ :=
  match canvas with
  | none => (px, py)
  | some cv =>
    match bg with
    | none => (px, py)
    | some b =>
      let minPanX : ℚ := 0
      let minPanY : ℚ := 0
      let maxPanX0 := b.w - cv.width / sc
      let maxPanX := if maxPanX0 < 0 then 0 else maxPanX0
      let maxPanY0 := b.h - cv.height / sc
      let maxPanY := if maxPanY0 < 0 then 0 else maxPanY0
      let cx1 := if px < minPanX then minPanX else px
      let cx2 := if maxPanX < cx1 then maxPanX else cx1
      let cy1 := if py < minPanY then minPanY else py
      let cy2 := if maxPanY < cy1 then maxPanY else cy1
      (cx2, cy2)

/-- part_001 `clampPan(px, py, sc)`: identity when the canvas or the
background is missing, otherwise `min(max(0, p), max(0, bg - canvas/sc))`
per component. -/
def clampPan1 (px py sc : ℚ) (canvas : Option Canvas) (bg : Option Extent) : ℚ × ℚ :=
  match canvas, bg with
  | some cv, some b =>
    let maxX := max 0 (b.w - cv.width / sc)
    let maxY := max 0 (b.h - cv.height / sc)
    (min (max 0 px) maxX, min (max 0 py) maxY)
  | _, _ => (px, py)

/-- `screenToWorld(screenX, screenY)`: identical in both variants.
Falls back to the identity when the canvas is not mounted; otherwise
`world = (screen - rect.origin) / scale + pan`. -/
def screenToWorld (scale panX panY : ℚ) (canvas : Option Canvas) (sx sy : ℚ) : ℚ × ℚ :=
  match canvas with
  | none => (sx, sy)
  | some cv => ((sx - cv.left) / scale + panX, (sy - cv.top) / scale + panY)

/-- The render-time world-to-screen mapping of the paint effect
(`ctx.translate(-pan*scale, ...)` then `ctx.scale(scale, scale)`): a world
point lands at canvas-local pixel `world*scale - pan*scale`. -/
def worldToScreenLocal (scale panX panY wx wy : ℚ) : ℚ × ℚ :=
  (wx * scale - panX * scale, wy * scale - panY * scale)

/-! ### Clamp characterization lemmas (shared helpers) -/

/-- The part_000 clamp, in the mounted-canvas/background-present case,
is the component-wise clamp into `[0, max 0 (bg - canvas/sc)]`. -/
theorem clampPan0_some (px py sc : ℚ) (cv : Canvas) (b : Extent) :
    clampPan0 px py sc (some cv) (some b) =
      (clampQ px 0 (max 0 (b.w - cv.width / sc)),
       clampQ py 0 (max 0 (b.h - cv.height / sc))) := by
  simp only [clampPan0, clampQ, min_def, max_def, Prod.mk.injEq]
  constructor <;> split_ifs <;> first | rfl | linarith

/-- The part_001 clamp, in the mounted-canvas/background-present case,
is the same component-wise clamp. -/
theorem clampPan1_some (px py sc : ℚ) (cv : Canvas) (b : Extent) :
    clampPan1 px py sc (some cv) (some b) =
      (clampQ px 0 (max 0 (b.w - cv.width / sc)),
       clampQ py 0 (max 0 (b.h - cv.height / sc))) := by
  simp only [clampPan1, clampQ]
  rw [max_comm px 0, max_comm py 0]

/-- The two variants compute the same clamp on every input. -/
theorem clampPan0_eq_clampPan1 (px py sc : ℚ) (canvas : Option Canvas) (bg : Option Extent) :
    clampPan0 px py sc canvas bg = clampPan1 px py sc canvas bg := by
  cases canvas with
  | none => rfl
  | some cv =>
    cases bg with
    | none => rfl
    | some b => rw [clampPan0_some, clampPan1_some]

/-- Clamping into `[lo, hi]` with `lo ≤ hi` is idempotent. -/
theorem clampQ_idem (x lo hi : ℚ) (h : lo ≤ hi) :
    clampQ (clampQ x lo hi) lo hi = clampQ x lo hi := by
  simp only [clampQ, min_def, max_def]
  split_ifs <;> first | rfl | linarith

/-- A point of `[lo, hi]` is a fixed point of the clamp. -/
theorem clampQ_fixed (x lo hi : ℚ) (h1 : lo ≤ x) (h2 : x ≤ hi) :
    clampQ x lo hi = x := by
  simp only [clampQ, min_def, max_def]
  split_ifs <;> first | rfl | linarith

/-- Conversely a fixed point of the clamp lies in `[lo, hi]` (when `lo ≤ hi`). -/
theorem clampQ_fixed_iff (x lo hi : ℚ) (h : lo ≤ hi) :
    clampQ x lo hi = x ↔ lo ≤ x ∧ x ≤ hi := by
  constructor
  · intro hx
    simp only [clampQ, min_def, max_def] at hx
    split_ifs at hx <;> constructor <;> linarith
  · intro ⟨h1, h2⟩
    exact clampQ_fixed x lo hi h1 h2

/-- The clamp result lies in `[lo, hi]` (when `lo ≤ hi`). -/
theorem clampQ_mem (x lo hi : ℚ) (h : lo ≤ hi) :
    lo ≤ clampQ x lo hi ∧ clampQ x lo hi ≤ hi := by
  simp only [clampQ, min_def, max_def]
  split_ifs <;> constructor <;> linarith

/-- Among the points of `[lo, hi]`, the clamp of `d` is nearest to `d`. -/
theorem clampQ_min_dist (d q lo hi : ℚ) (h1 : lo ≤ q) (h2 : q ≤ hi) :
    |clampQ d lo hi - d| ≤ |q - d| := by
  rcases lt_trichotomy d lo with hd | hd | hd
  · rw [show clampQ d lo hi = lo by
      simp only [clampQ, min_def, max_def]; split_ifs <;> linarith]
    rw [abs_of_nonneg (by linarith), abs_of_nonneg (by linarith)]
    linarith
  · rw [show clampQ d lo hi = d by
      exact clampQ_fixed d lo hi (le_of_eq hd.symm) (by linarith)]
    simp [abs_nonneg]
  · rcases le_or_lt d hi with hdh | hdh
    · rw [clampQ_fixed d lo hi (by linarith) hdh]
      simp [abs_nonneg]
    · rw [show clampQ d lo hi = hi by
        simp only [clampQ, min_def, max_def]; split_ifs <;> linarith]
      rw [abs_of_nonpos (by linarith), abs_of_nonpos (by linarith)]
      linarith

/-- part_000 clamp is idempotent on every input. -/
theorem clampPan0_idem (px py sc : ℚ) (canvas : Option Canvas) (bg : Option Extent) :
    clampPan0 (clampPan0 px py sc canvas bg).1 (clampPan0 px py sc canvas bg).2 sc canvas bg =
      clampPan0 px py sc canvas bg := by
  cases canvas with
  | none => rfl
  | some cv =>
    cases bg with
    | none => rfl
    | some b =>
      rw [clampPan0_some, clampPan0_some]
      simp only
      rw [clampQ_idem _ _ _ (le_max_left 0 _), clampQ_idem _ _ _ (le_max_left 0 _)]

/-- part_001 clamp is idempotent on every input. -/
theorem clampPan1_idem (px py sc : ℚ) (canvas : Option Canvas) (bg : Option Extent) :
    clampPan1 (clampPan1 px py sc canvas bg).1 (clampPan1 px py sc canvas bg).2 sc canvas bg =
      clampPan1 px py sc canvas bg := by
  simp only [← clampPan0_eq_clampPan1]
  exact clampPan0_idem px py sc canvas bg

/-! ### Viewport operations -/

/-- part_000 `handleWheel`: early return when the canvas is not mounted;
otherwise `newScale = scale*1.1` capped at `4` (wheel up) or `scale/1.1`
floored at `1` (wheel down), new pan keeps the world point under the mouse
fixed, then `clampPan`, and scale and pan are committed together. -/
def handleWheel0 (canvas : Option Canvas) (bg : Option Extent)
    (v : Viewport) (clientX clientY : ℚ) (wheelUp : Bool) : Viewport :=
  match canvas with
  | none => v
  | some cv =>
    let mouseX := clientX - cv.left
    let mouseY := clientY - cv.top
    let newScale :=
      if wheelUp then (if 4 < v.scale * (11/10) then 4 else v.scale * (11/10))
      else (if v.scale / (11/10) < 1 then 1 else v.scale / (11/10))
    let worldXBefore := mouseX / v.scale + v.panX
    let worldYBefore := mouseY / v.scale + v.panY
    let newPanX := worldXBefore - mouseX / newScale
    let newPanY := worldYBefore - mouseY / newScale
    let clamped := clampPan0 newPanX newPanY newScale canvas bg
    ⟨newScale, clamped.1, clamped.2⟩

/-- part_000 `zoomAroundCenter(newScale)`: when the canvas is missing only
the scale is set; otherwise the viewport center is the anchor and the
clamped pan is committed with the new scale. -/
def zoomAroundCenter0 (canvas : Option Canvas) (bg : Option Extent)
    (v : Viewport) (newScale : ℚ) : Viewport :=
  match canvas with
  | none => { v with scale := newScale }
  | some cv =>
    let centerX := cv.width / 2
    let centerY := cv.height / 2
    let worldXBefore := centerX / v.scale + v.panX
    let worldYBefore := centerY / v.scale + v.panY
    let newPanX := worldXBefore - centerX / newScale
    let newPanY := worldYBefore - centerY / newScale
    let clamped := clampPan0 newPanX newPanY newScale canvas bg
    ⟨newScale, clamped.1, clamped.2⟩

/-- part_000 `zoomIn`: scale times 1.1 capped at 4, around the center. -/
def zoomIn0 (canvas : Option Canvas) (bg : Option Extent) (v : Viewport) : Viewport :=
  zoomAroundCenter0 canvas bg v
    (if 4 < v.scale * (11/10) then 4 else v.scale * (11/10))

/-- part_000 `zoomOut`: scale divided by 1.1 floored at 1, around the center. -/
def zoomOut0 (canvas : Option Canvas) (bg : Option Extent) (v : Viewport) : Viewport :=
  zoomAroundCenter0 canvas bg v
    (if v.scale / (11/10) < 1 then 1 else v.scale / (11/10))

/-- part_000 `resetZoom`: scale 1, pan (0,0), no clamp. -/
def resetZoom0 : Viewport := ⟨1, 0, 0⟩

/-- part_001 `handleWheel`: `newScale = min(max(1, scale * (1.1 or 1/1.1)), 4)`,
anchor-preserving pan, `clampPan`, committed together. -/
def handleWheel1 (canvas : Option Canvas) (bg : Option Extent)
    (v : Viewport) (clientX clientY : ℚ) (wheelUp : Bool) : Viewport :=
  match canvas with
  | none => v
  | some cv =>
    let localX := clientX - cv.left
    let localY := clientY - cv.top
    let newScale := min (max 1 (v.scale * (if wheelUp then 11/10 else 1 / (11/10)))) 4
    let worldX := localX / v.scale + v.panX
    let worldY := localY / v.scale + v.panY
    let newPan := clampPan1 (worldX - localX / newScale) (worldY - localY / newScale)
      newScale canvas bg
    ⟨newScale, newPan.1, newPan.2⟩

/-- part_001 `zoomByFactor(factor)`: `newScale = min(max(1, scale*factor), 4)`;
when the canvas is missing only the scale is set, otherwise the center is
the anchor and the clamped pan is committed with the new scale. -/
def zoomByFactor1 (canvas : Option Canvas) (bg : Option Extent)
    (v : Viewport) (factor : ℚ) : Viewport :=
  let newScale := min (max 1 (v.scale * factor)) 4
  match canvas with
  | none => { v with scale := newScale }
  | some cv =>
    let centerX := cv.width / 2
    let centerY := cv.height / 2
    let worldX := centerX / v.scale + v.panX
    let worldY := centerY / v.scale + v.panY
    let newPan := clampPan1 (worldX - centerX / newScale) (worldY - centerY / newScale)
      newScale canvas bg
    ⟨newScale, newPan.1, newPan.2⟩

/-! ### Zoom anchor invariance: the specification predicate and core lemma -/

/-- The anchor-invariance contract for one zoom transition from `v` to `v'`
with anchor at canvas-local offset `(lx, ly)` (client point minus the
canvas bounding-rectangle origin): the committed pan is the clamp of the
anchor-preserving pan at the new scale; with no background the anchor's
world point is exactly preserved; and in general the world point under the
anchor after the transition deviates from the one before by the least
amount any clamp-feasible pan allows, on each axis. -/
def ZoomAnchorSpec (cv : Canvas) (bg : Option Extent) (v v' : Viewport)
    (lx ly : ℚ) : Prop :=
  let wx0 := lx / v.scale + v.panX
  let wy0 := ly / v.scale + v.panY
  let wx1 := lx / v'.scale + v'.panX
  let wy1 := ly / v'.scale + v'.panY
  (v'.panX, v'.panY) =
      clampPan1 (wx0 - lx / v'.scale) (wy0 - ly / v'.scale) v'.scale (some cv) bg ∧
  (bg = none → wx1 = wx0 ∧ wy1 = wy0) ∧
  ∀ qx qy : ℚ, clampPan1 qx qy v'.scale (some cv) bg = (qx, qy) →
    |wx1 - wx0| ≤ |lx / v'.scale + qx - wx0| ∧ |wy1 - wy0| ≤ |ly / v'.scale + qy - wy0|

/-- The deviation on one axis after a zoom commit that clamps the desired
pan `w - l/ns` into `[0, mx]` is the least deviation any in-bounds pan `q`
allows. -/
theorem zoom_axis_min_dist (l w ns mx q : ℚ) (hmx : 0 ≤ mx)
    (hq : clampQ q 0 mx = q) :
    |l / ns + clampQ (w - l / ns) 0 mx - w| ≤ |l / ns + q - w| := by
  have hq' := (clampQ_fixed_iff q 0 mx hmx).mp hq
  have h := clampQ_min_dist (w - l / ns) q 0 mx hq'.1 hq'.2
  have e1 : l / ns + clampQ (w - l / ns) 0 mx - w
      = clampQ (w - l / ns) 0 mx - (w - l / ns) := by ring
  have e2 : l / ns + q - w = q - (w - l / ns) := by ring
  rw [e1, e2]
  exact h

/-- Core lemma: any zoom commit of the shape
`⟨ns, clampPan1 (wx0 - lx/ns, wy0 - ly/ns) ns⟩` satisfies the
anchor-invariance contract. -/
theorem zoomCommit_anchorSpec (cv : Canvas) (bg : Option Extent) (v : Viewport)
    (lx ly ns : ℚ) :
    ZoomAnchorSpec cv bg v
      ⟨ns,
       (clampPan1 (lx / v.scale + v.panX - lx / ns)
          (ly / v.scale + v.panY - ly / ns) ns (some cv) bg).1,
       (clampPan1 (lx / v.scale + v.panX - lx / ns)
          (ly / v.scale + v.panY - ly / ns) ns (some cv) bg).2⟩
      lx ly := by
  cases bg with
  | none =>
    refine ⟨rfl, ?_, ?_⟩
    · intro _
      simp only [clampPan1]
      constructor <;> ring
    · intro qx qy _
      simp only [clampPan1]
      constructor <;> (rw [show ∀ a b : ℚ, a + (b - a) - b = 0 by intro a b; ring]) <;>
        simp [abs_nonneg]
  | some b =>
    refine ⟨rfl, by intro h; exact absurd h (by simp), ?_⟩
    intro qx qy hq
    rw [clampPan1_some] at hq
    have hqx : clampQ qx 0 (max 0 (b.w - cv.width / ns)) = qx := congrArg Prod.fst hq
    have hqy : clampQ qy 0 (max 0 (b.h - cv.height / ns)) = qy := congrArg Prod.snd hq
    simp only [ZoomAnchorSpec, clampPan1_some]
    exact ⟨zoom_axis_min_dist _ _ _ _ _ (le_max_left 0 _) hqx,
           zoom_axis_min_dist _ _ _ _ _ (le_max_left 0 _) hqy⟩

/-- `scale*1.1` capped at `4` from above equals `clamp(scale*1.1, 1, 4)`
when the input is at least `1`. -/
theorem capAt4_eq (x : ℚ) (hx : 1 ≤ x) : (if 4 < x then 4 else x) = min (max 1 x) 4 := by
  rw [max_eq_right hx, min_def]
  split_ifs <;> first | rfl | linarith

/-- `scale/1.1` floored at `1` from below equals `clamp(scale/1.1, 1, 4)`
when the input is at most `4`. -/
theorem floorAt1_eq (x : ℚ) (hx : x ≤ 4) : (if x < 1 then 1 else x) = min (max 1 x) 4 := by
  have h : min (max 1 x) 4 = max 1 x :=
    min_eq_left (by rw [max_le_iff]; exact ⟨by norm_num, hx⟩)
  rw [h, max_def]
  split_ifs <;> first | rfl | linarith

/-- C2.  Zoom anchor invariance: every zoom-at-point operation (the wheel
handler of each variant with its anchor under the mouse, and the
button-zoom `zoomByFactor` with the viewport center as anchor and an
arbitrary factor) sets `newScale = clamp(scale*factor, 1, 4)`, commits
scale and pan together, and preserves the world point under the anchor
exactly when no clamping interferes, otherwise with the minimum deviation
any clamp-feasible pan allows. -/
theorem zoomAt_anchor_invariance
    (cv : Canvas) (bg : Option Extent) (v : Viewport) (clientX clientY : ℚ)
    (h1 : 1 ≤ v.scale) (h4 : v.scale ≤ 4) :
    (∀ wheelUp : Bool,
      (handleWheel0 (some cv) bg v clientX clientY wheelUp).scale
        = min (max 1 (v.scale * (if wheelUp then 11/10 else 10/11))) 4 ∧
      ZoomAnchorSpec cv bg v (handleWheel0 (some cv) bg v clientX clientY wheelUp)
        (clientX - cv.left) (clientY - cv.top)) ∧
    (∀ wheelUp : Bool,
      (handleWheel1 (some cv) bg v clientX clientY wheelUp).scale
        = min (max 1 (v.scale * (if wheelUp then 11/10 else 10/11))) 4 ∧
      ZoomAnchorSpec cv bg v (handleWheel1 (some cv) bg v clientX clientY wheelUp)
        (clientX - cv.left) (clientY - cv.top)) ∧
    (∀ factor : ℚ,
      (zoomByFactor1 (some cv) bg v factor).scale = min (max 1 (v.scale * factor)) 4 ∧
      ZoomAnchorSpec cv bg v (zoomByFactor1 (some cv) bg v factor)
        (cv.width / 2) (cv.height / 2)) := by
  refine ⟨?_, ?_, ?_⟩
  · intro wheelUp
    constructor
    · cases wheelUp with
      | true =>
        show (if 4 < v.scale * (11/10) then 4 else v.scale * (11/10)) = _
        rw [if_pos rfl]
        exact capAt4_eq _ (by linarith)
      | false =>
        show (if v.scale / (11/10) < 1 then 1 else v.scale / (11/10)) = _
        have hdiv : v.scale / (11/10) = v.scale * (10/11) := by
          rw [div_eq_mul_inv]; norm_num
        rw [hdiv]
        simp only [Bool.false_eq_true, if_false]
        exact floorAt1_eq (v.scale * (10/11)) (by linarith)
    · simp only [handleWheel0, clampPan0_eq_clampPan1]
      exact zoomCommit_anchorSpec cv bg v _ _ _
  · intro wheelUp
    constructor
    · cases wheelUp with
      | true => rw [if_pos rfl]; rfl
      | false =>
        show min (max 1 (v.scale * (1 / (11/10)))) 4 = _
        simp only [Bool.false_eq_true, if_false]
        norm_num
    · simp only [handleWheel1]
      exact zoomCommit_anchorSpec cv bg v _ _ _
  · intro factor
    refine ⟨rfl, ?_⟩
    simp only [zoomByFactor1]
    exact zoomCommit_anchorSpec cv bg v _ _ _

/-- Witness for C2 at a concrete input: viewport `scale 1, pan (0,0)`,
canvas `400×300` at the screen origin, background `800×600`, button zoom
by factor `2`. -/
theorem zoomAt_anchor_invariance_witness :
    (1:ℚ) ≤ (Viewport.mk 1 0 0).scale ∧ (Viewport.mk 1 0 0).scale ≤ 4 ∧
    ((zoomByFactor1 (some ⟨0, 0, 400, 300⟩) (some ⟨800, 600⟩) ⟨1, 0, 0⟩ 2).scale
        = min (max 1 ((Viewport.mk 1 0 0).scale * 2)) 4 ∧
      ZoomAnchorSpec ⟨0, 0, 400, 300⟩ (some ⟨800, 600⟩) ⟨1, 0, 0⟩
        (zoomByFactor1 (some ⟨0, 0, 400, 300⟩) (some ⟨800, 600⟩) ⟨1, 0, 0⟩ 2)
        ((Canvas.mk 0 0 400 300).width / 2) ((Canvas.mk 0 0 400 300).height / 2)) :=
  ⟨by norm_num, by norm_num,
   (zoomAt_anchor_invariance ⟨0, 0, 400, 300⟩ (some ⟨800, 600⟩) ⟨1, 0, 0⟩ 0 0
      (by norm_num) (by norm_num)).2.2 2⟩

/-- C1.  `clampPan` contract: with no background both variants are the
identity for every pan and scale; with a background `(bgw, bgh)` and a
mounted canvas (the viewport), both variants clamp each component into
`[0, max 0 (bg - viewport/scale)]`, for every pan and every scale in
`[1, 4]`. -/
theorem clampPan_contract :
    (∀ (px py sc : ℚ) (canvas : Option Canvas),
      clampPan0 px py sc canvas none = (px, py) ∧
      clampPan1 px py sc canvas none = (px, py)) ∧
    (∀ (px py sc : ℚ) (cv : Canvas) (b : Extent), 1 ≤ sc → sc ≤ 4 →
      clampPan0 px py sc (some cv) (some b) =
        (clampQ px 0 (max 0 (b.w - cv.width / sc)),
         clampQ py 0 (max 0 (b.h - cv.height / sc))) ∧
      clampPan1 px py sc (some cv) (some b) =
        (clampQ px 0 (max 0 (b.w - cv.width / sc)),
         clampQ py 0 (max 0 (b.h - cv.height / sc)))) := by
  constructor
  · intro px py sc canvas
    cases canvas <;> exact ⟨rfl, rfl⟩
  · intro px py sc cv b _ _
    exact ⟨clampPan0_some px py sc cv b, clampPan1_some px py sc cv b⟩

/-- Witness for C1 at the spec's concrete numbers: background `800×600`,
viewport `400×300`, scale `2`; the valid x-range is `[0, 600]` so a
requested pan of `700` clamps to `600`. -/
theorem clampPan_contract_witness :
    ((1:ℚ) ≤ 2 ∧ (2:ℚ) ≤ 4 ∧
      clampPan0 700 350 2 (some ⟨0, 0, 400, 300⟩) (some ⟨800, 600⟩) =
        (clampQ 700 0 (max 0 (800 - 400 / 2)), clampQ 350 0 (max 0 (600 - 300 / 2)))) ∧
    clampPan0 700 350 2 (some ⟨0, 0, 400, 300⟩) (some ⟨800, 600⟩) = (600, 350) :=
  ⟨⟨by norm_num, by norm_num,
    (clampPan_contract.2 700 350 2 ⟨0, 0, 400, 300⟩ ⟨800, 600⟩
      (by norm_num) (by norm_num)).1⟩,
   by norm_num [clampPan0]⟩

/-- C9.  Clamp idempotence: applying either variant's `clampPan` twice
equals applying it once, for every pan, scale, background (present or
absent) and canvas (present or absent). -/
theorem clampPan_idempotent :
    ∀ (px py sc : ℚ) (canvas : Option Canvas) (bg : Option Extent),
      (clampPan0 (clampPan0 px py sc canvas bg).1 (clampPan0 px py sc canvas bg).2
          sc canvas bg = clampPan0 px py sc canvas bg) ∧
      (clampPan1 (clampPan1 px py sc canvas bg).1 (clampPan1 px py sc canvas bg).2
          sc canvas bg = clampPan1 px py sc canvas bg) :=
  fun px py sc canvas bg =>
    ⟨clampPan0_idem px py sc canvas bg, clampPan1_idem px py sc canvas bg⟩

/-- C4.  Transform round-trip: for any screen point, any pan, and any
scale in `[1, 4]`, the render-time world-to-screen mapping applied to
`screenToWorld` of the point gives back the point, re-expressed at the
canvas position on screen (exactly; the canvas is placed at the screen
origin in the source, where the two frames coincide). -/
theorem transform_round_trip
    (v : Viewport) (cv : Canvas) (sx sy : ℚ) (h1 : 1 ≤ v.scale) (_h4 : v.scale ≤ 4) :
    ((worldToScreenLocal v.scale v.panX v.panY
        (screenToWorld v.scale v.panX v.panY (some cv) sx sy).1
        (screenToWorld v.scale v.panX v.panY (some cv) sx sy).2).1 + cv.left,
     (worldToScreenLocal v.scale v.panX v.panY
        (screenToWorld v.scale v.panX v.panY (some cv) sx sy).1
        (screenToWorld v.scale v.panX v.panY (some cv) sx sy).2).2 + cv.top)
      = (sx, sy) := by
  have hs : v.scale ≠ 0 := by positivity
  simp only [screenToWorld, worldToScreenLocal, Prod.mk.injEq]
  constructor <;> field_simp

/-- Witness for C4 at a concrete input: scale `2`, pan `(7, 5)`, canvas at
`(10, 20)`, screen point `(100, 60)`. -/
theorem transform_round_trip_witness :
    (1:ℚ) ≤ (Viewport.mk 2 7 5).scale ∧ (Viewport.mk 2 7 5).scale ≤ 4 ∧
    ((worldToScreenLocal 2 7 5
        (screenToWorld 2 7 5 (some ⟨10, 20, 400, 300⟩) 100 60).1
        (screenToWorld 2 7 5 (some ⟨10, 20, 400, 300⟩) 100 60).2).1 + (10:ℚ),
     (worldToScreenLocal 2 7 5
        (screenToWorld 2 7 5 (some ⟨10, 20, 400, 300⟩) 100 60).1
        (screenToWorld 2 7 5 (some ⟨10, 20, 400, 300⟩) 100 60).2).2 + (20:ℚ))
      = (100, 60) :=
  ⟨by norm_num, by norm_num,
   transform_round_trip ⟨2, 7, 5⟩ ⟨10, 20, 400, 300⟩ 100 60 (by norm_num) (by norm_num)⟩

/-! ### Fade timers and the expiry sweeper -/

/-- A fade duration: a finite number of milliseconds or the JS `Infinity`. -/
inductive FadeMs where
  | fin (ms : ℚ)
  | inf
  deriving DecidableEq, Repr

/-- part_000 `parseFadeTime` (a `switch` with default `Infinity`); part_001's
`fadeToMs` looks the same values up in `FADE_OPTIONS` with default
`Infinity` — the same label-to-duration table. -/
def parseFadeTime (v : String) : FadeMs :=
  if v = "10s" then .fin 10000
  else if v = "30s" then .fin 30000
  else if v = "1m" then .fin 60000
  else if v = "5m" then .fin 300000
  else if v = "10m" then .fin 600000
  else .inf

/-- Expiry assignment.  part_000 writes
`fadeMs === Infinity ? Infinity : Date.now() + fadeMs`; part_001 writes
`Date.now() + fadeToMs(...)`, which in JS also evaluates to `Infinity`
when the duration is `Infinity` (finite + Infinity = Infinity). -/
def mkExpireAt (now : ℚ) (f : FadeMs) : ExpireAt :=
  match f with
  | .inf => .inf
  | .fin ms => .fin (now + ms)

/-- One action's survival test in the 2000 ms sweeper, identical in both
variants: `!action.expireAt || action.expireAt === Infinity || now < action.expireAt`.
In JS `!x` is true for `undefined` and also for the falsy number `0`, so a
finite `expireAt` of exactly `0` passes the first disjunct. -/
def keepAction (a : DrawAction) (now : ℚ) : Bool :=
  match a.expireAt with
  | .undef => true
  | .inf => true
  | .fin t => decide (t = 0) || decide (now < t)

/-- One sweeper tick: `prev.filter(...)` with the survival test. -/
def sweepTick (l : List DrawAction) (now : ℚ) : List DrawAction :=
  l.filter (fun a => keepAction a now)

/-! ### Undo -/

/-- JS `String.prototype.toLowerCase()`, character-wise (the keys the
handlers compare are ASCII). -/
def jsToLower (s : String) : String := String.mk (s.data.map Char.toLower)

/-- The fields of a keyboard event the undo handlers read. -/
structure KeyEvent where
  key : String
  ctrlKey : Bool
  metaKey : Bool
  deriving DecidableEq, Repr

/-- part_000 undo `handleKeyDown`: Backspace drops the last action
(`prev.slice(0, -1)`); otherwise Ctrl/Cmd + (key lowercasing to) `z` does
the same; any other key leaves the list unchanged. -/
def undoKeyDown0 (e : KeyEvent) (l : List DrawAction) : List DrawAction :=
  if e.key = "Backspace" then l.dropLast
  else if (e.ctrlKey || e.metaKey) && (jsToLower e.key == "z") then l.dropLast
  else l

/-- part_001 undo handler: the same logic, line for line. -/
def undoKeyDown1 (e : KeyEvent) (l : List DrawAction) : List DrawAction :=
  if e.key = "Backspace" then l.dropLast
  else if (e.ctrlKey || e.metaKey) && (jsToLower e.key == "z") then l.dropLast
  else l

/-! ### part_000 gesture state machine -/

/-- The settings and environment fixed while part_000's mouse handlers run:
mount state, canvas, background, author identity, tool configuration. -/
structure Ctx0 where
  mounted : Bool
  canvas : Option Canvas
  bg : Option Extent
  userId : String
  userName : String
  userColor : String
  activeTool : Tool
  lineWidth : ℚ
  selectedEmoji : String
  fadeSetting : String

/-- The mutable state part_000's mouse handlers read and write. -/
structure State0 where
  scale : ℚ
  panX : ℚ
  panY : ℚ
  isPanning : Bool
  panStartX : ℚ
  panStartY : ℚ
  isDrawing : Bool
  startX : ℚ
  startY : ℚ
  drawActions : List DrawAction

/-- part_000 `handleMouseDown`: no-op when the container is not mounted;
Ctrl starts panning (recording the anchor); otherwise starts drawing
(recording the world-space start point). -/
def handleMouseDown0 (c : Ctx0) (s : State0) (cx cy : ℚ) (ctrl : Bool) : State0 :=
  if !c.mounted then s
  else if ctrl then { s with isPanning := true, panStartX := cx, panStartY := cy }
  else
    let w := screenToWorld s.scale s.panX s.panY c.canvas cx cy
    { s with startX := w.1, startY := w.2, isDrawing := true }

/-- part_000 `handleMouseMove`: while panning, apply the incremental delta
(divided by scale), clamp, and re-anchor; while drawing with the pen,
append one segment action and advance the start point; otherwise no-op. -/
def handleMouseMove0 (c : Ctx0) (s : State0) (cx cy now : ℚ) : State0 :=
  if s.isPanning then
    let dx := cx - s.panStartX
    let dy := cy - s.panStartY
    let nx := s.panX - dx / s.scale
    let ny := s.panY - dy / s.scale
    let cl := clampPan0 nx ny s.scale c.canvas c.bg
    { s with panStartX := cx, panStartY := cy, panX := cl.1, panY := cl.2 }
  else if s.isDrawing then
    if c.activeTool = Tool.pen then
      let w := screenToWorld s.scale s.panX s.panY c.canvas cx cy
      let a : DrawAction :=
        { userId := c.userId, userName := c.userName, color := c.userColor,
          tool := Tool.pen, lineWidth := c.lineWidth,
          start := ⟨s.startX, s.startY⟩, endPt := ⟨w.1, w.2⟩,
          emoji := none,
          expireAt := mkExpireAt now (parseFadeTime c.fadeSetting) }
      { s with drawActions := s.drawActions ++ [a], startX := w.1, startY := w.2 }
    else s
  else s

/-- part_000 `handleMouseUp`: while panning, stop panning; while drawing,
emit one action for arrow/circle/emoji (the pen already emitted during the
moves) and stop drawing. -/
def handleMouseUp0 (c : Ctx0) (s : State0) (cx cy now : ℚ) : State0 :=
  if s.isPanning then { s with isPanning := false }
  else if s.isDrawing then
    let w := screenToWorld s.scale s.panX s.panY c.canvas cx cy
    let s' :=
      if c.activeTool = Tool.arrow ∨ c.activeTool = Tool.circle ∨ c.activeTool = Tool.emoji then
        let a : DrawAction :=
          { userId := c.userId, userName := c.userName, color := c.userColor,
            tool := c.activeTool, lineWidth := c.lineWidth,
            start := ⟨s.startX, s.startY⟩, endPt := ⟨w.1, w.2⟩,
            emoji := some c.selectedEmoji,
            expireAt := mkExpireAt now (parseFadeTime c.fadeSetting) }
        { s with drawActions := s.drawActions ++ [a] }
      else s
    { s' with isDrawing := false }
  else s

/-- A mouse-move event: client coordinates and the clock value at which it
is handled. -/
structure MoveEv where
  cx : ℚ
  cy : ℚ
  now : ℚ

/-- Run a sequence of move events through part_000's move handler. -/
def runMoves0 (c : Ctx0) (s : State0) (ms : List MoveEv) : State0 :=
  ms.foldl (fun st m => handleMouseMove0 c st m.cx m.cy m.now) s

/-! ### part_001 gesture state machine -/

/-- The settings and environment fixed while part_001's mouse handlers run. -/
structure Ctx1 where
  canvas : Option Canvas
  bg : Option Extent
  userId : String
  userName : String
  userColour : String
  currentTool : Tool
  lineWidth : ℚ
  selectedEmoji : String
  fadeSetting : String

/-- The mutable state part_001's mouse handlers read and write (pan/draw
flags live in refs, the rest in React state; same data). -/
structure State1 where
  scale : ℚ
  panX : ℚ
  panY : ℚ
  isPanning : Bool
  panStartX : ℚ
  panStartY : ℚ
  isDrawing : Bool
  drawStartX : ℚ
  drawStartY : ℚ
  actions : List DrawAction
  menuOpen : Bool
  menuPosX : ℚ
  menuPosY : ℚ

/-- part_001 `pushAction`: append one action with the current settings. -/
def pushAction1 (c : Ctx1) (now : ℚ) (tool : Tool) (st en : Pt)
    (l : List DrawAction) : List DrawAction :=
  l ++ [{ userId := c.userId, userName := c.userName, color := c.userColour,
          tool := tool, lineWidth := c.lineWidth,
          start := st, endPt := en,
          emoji := some c.selectedEmoji,
          expireAt := mkExpireAt now (parseFadeTime c.fadeSetting) }]

/-- part_001 `handleMouseDown`: button 2 opens the radial menu; a click
while the menu is open closes it; Ctrl starts panning; otherwise starts
drawing. -/
def handleMouseDown1 (c : Ctx1) (s : State1) (cx cy : ℚ) (button : Nat)
    (ctrl : Bool) : State1 :=
  if button = 2 then { s with menuPosX := cx, menuPosY := cy, menuOpen := true }
  else if s.menuOpen then { s with menuOpen := false }
  else if ctrl then { s with isPanning := true, panStartX := cx, panStartY := cy }
  else
    let w := screenToWorld s.scale s.panX s.panY c.canvas cx cy
    { s with isDrawing := true, drawStartX := w.1, drawStartY := w.2 }

/-- part_001 `handleMouseMove`: while panning, incremental clamped pan and
re-anchor; while drawing with the pen, push one segment and continue the
stroke; otherwise no-op. -/
def handleMouseMove1 (c : Ctx1) (s : State1) (cx cy now : ℚ) : State1 :=
  if s.isPanning then
    let dx := cx - s.panStartX
    let dy := cy - s.panStartY
    let cl := clampPan1 (s.panX - dx / s.scale) (s.panY - dy / s.scale) s.scale c.canvas c.bg
    { s with panX := cl.1, panY := cl.2, panStartX := cx, panStartY := cy }
  else if s.isDrawing then
    if c.currentTool = Tool.pen then
      let en := screenToWorld s.scale s.panX s.panY c.canvas cx cy
      { s with actions := pushAction1 c now Tool.pen ⟨s.drawStartX, s.drawStartY⟩
                 ⟨en.1, en.2⟩ s.actions,
               drawStartX := en.1, drawStartY := en.2 }
    else s
  else s

/-- part_001 `handleMouseUp`: while panning, stop; while drawing, stop and
push one action with the current tool (every tool, including the pen). -/
def handleMouseUp1 (c : Ctx1) (s : State1) (cx cy now : ℚ) : State1 :=
  if s.isPanning then { s with isPanning := false }
  else if s.isDrawing then
    let en := screenToWorld s.scale s.panX s.panY c.canvas cx cy
    { s with isDrawing := false,
             actions := pushAction1 c now c.currentTool ⟨s.drawStartX, s.drawStartY⟩
               ⟨en.1, en.2⟩ s.actions }
  else s

/-- Run a sequence of move events through part_001's move handler. -/
def runMoves1 (c : Ctx1) (s : State1) (ms : List MoveEv) : State1 :=
  ms.foldl (fun st m => handleMouseMove1 c st m.cx m.cy m.now) s

/-! ### Arrow rendering -/

/-- The transcendental functions the arrow renderer calls
(`Math.atan2/cos/sin` and `Math.PI`).  JS evaluates them to doubles, i.e.
to rationals; the embedding abstracts over their values, which none of the
verified properties depend on. -/
structure TrigOracle where
  atan2 : ℚ → ℚ → ℚ
  cos : ℚ → ℚ
  sin : ℚ → ℚ
  pi : ℚ

/-- A primitive drawing command issued to the 2D context: a stroked line
segment or a filled triangle. -/
inductive Shape where
  | line (p q : Pt) (color : String) (width : ℚ)
  | triangle (apex b1 b2 : Pt) (color : String)
  deriving DecidableEq, Repr

/-- part_000 `drawArrowHead`: filled triangle with apex at the tip and two
base points at `tip − headLength·(cos, sin)(angle ∓ π/6)`. -/
def drawArrowHead0 (T : TrigOracle) (xTip yTip angle : ℚ) (color : String)
    (headLength : ℚ) : Shape :=
  Shape.triangle ⟨xTip, yTip⟩
    ⟨xTip - headLength * T.cos (angle - T.pi / 6),
     yTip - headLength * T.sin (angle - T.pi / 6)⟩
    ⟨xTip - headLength * T.cos (angle + T.pi / 6),
     yTip - headLength * T.sin (angle + T.pi / 6)⟩
    color

/-- part_000 `drawArrow`.  The source compares
`sqrt(dx² + dy²) < lineWidth * 1.5`; over the exact numbers this holds iff
`0 ≤ lineWidth * 1.5` and `dx² + dy² < (lineWidth * 1.5)²`, which is how the
guard is written here (ℚ has no square root).  When the guard holds only
the head is drawn; otherwise the shaft is drawn up to the point pulled back
from the end by `1.5·lineWidth`, then the head. -/
def drawArrow0 (T : TrigOracle) (a : DrawAction) : List Shape :=
  let x1 := a.start.x
  let y1 := a.start.y
  let x2 := a.endPt.x
  let y2 := a.endPt.y
  let lw := a.lineWidth
  let angle := T.atan2 (y2 - y1) (x2 - x1)
  let dx := x2 - x1
  let dy := y2 - y1
  let headLength := lw * 3
  let lineEndDistance := lw * (3/2)
  if 0 ≤ lineEndDistance ∧ dx * dx + dy * dy < lineEndDistance * lineEndDistance then
    [drawArrowHead0 T x2 y2 angle a.color headLength]
  else
    let xBase := x2 - lineEndDistance * T.cos angle
    let yBase := y2 - lineEndDistance * T.sin angle
    [Shape.line ⟨x1, y1⟩ ⟨xBase, yBase⟩ a.color lw,
     drawArrowHead0 T x2 y2 angle a.color headLength]

/-- part_001 `drawArrow`: no degenerate-case check; always draws the shaft
(pulled back by `headLength = 3·lineWidth`) and then the head, whose base
points use `angle ∓ 0.5` radians. -/
def drawArrow1 (T : TrigOracle) (a : DrawAction) : List Shape :=
  let x1 := a.start.x
  let y1 := a.start.y
  let x2 := a.endPt.x
  let y2 := a.endPt.y
  let lw := a.lineWidth
  let angle := T.atan2 (y2 - y1) (x2 - x1)
  let headLength := lw * 3
  [Shape.line ⟨x1, y1⟩
     ⟨x2 - headLength * T.cos angle, y2 - headLength * T.sin angle⟩ a.color lw,
   Shape.triangle ⟨x2, y2⟩
     ⟨x2 - headLength * T.cos (angle - 1/2), y2 - headLength * T.sin (angle - 1/2)⟩
     ⟨x2 - headLength * T.cos (angle + 1/2), y2 - headLength * T.sin (angle + 1/2)⟩
     a.color]

/-- Discriminator: is a shape a stroked line (a shaft)? -/
def isShaft : Shape → Bool
  | .line _ _ _ _ => true
  | .triangle _ _ _ _ => false

/-- The apex of a triangle shape, if the shape is a triangle. -/
def triApex : Shape → Option Pt
  | .triangle p _ _ _ => some p
  | .line _ _ _ _ => none

/-! ### The viewport invariant -/

/-- The invariant of §4.3: the scale lies in `[1, 4]` and the pan is a
fixed point of the clamp at that scale (equivalently, it satisfies the
clamp bounds). -/
def ViewportOk (canvas : Option Canvas) (bg : Option Extent) (v : Viewport) : Prop :=
  1 ≤ v.scale ∧ v.scale ≤ 4 ∧
  clampPan0 v.panX v.panY v.scale canvas bg = (v.panX, v.panY)

/-- A zoom commit whose pan went through `clampPan0` satisfies the
invariant as soon as its scale is in range. -/
theorem viewportOk_commit0 (canvas : Option Canvas) (bg : Option Extent)
    (a b ns : ℚ) (hns1 : 1 ≤ ns) (hns4 : ns ≤ 4) :
    ViewportOk canvas bg
      ⟨ns, (clampPan0 a b ns canvas bg).1, (clampPan0 a b ns canvas bg).2⟩ :=
  ⟨hns1, hns4, clampPan0_idem a b ns canvas bg⟩

/-- A zoom commit whose pan went through `clampPan1` satisfies the
invariant as soon as its scale is in range. -/
theorem viewportOk_commit1 (canvas : Option Canvas) (bg : Option Extent)
    (a b ns : ℚ) (hns1 : 1 ≤ ns) (hns4 : ns ≤ 4) :
    ViewportOk canvas bg
      ⟨ns, (clampPan1 a b ns canvas bg).1, (clampPan1 a b ns canvas bg).2⟩ := by
  refine ⟨hns1, hns4, ?_⟩
  show clampPan0 (clampPan1 a b ns canvas bg).1 (clampPan1 a b ns canvas bg).2
      ns canvas bg = _
  rw [clampPan0_eq_clampPan1]
  exact clampPan1_idem a b ns canvas bg

/-- part_000's zoom-in scale update stays in `[1, 4]`. -/
theorem nsUp_mem (s : ℚ) (h1 : 1 ≤ s) (_h4 : s ≤ 4) :
    1 ≤ (if 4 < s * (11/10) then 4 else s * (11/10)) ∧
    (if 4 < s * (11/10) then 4 else s * (11/10)) ≤ 4 := by
  split_ifs <;> constructor <;> linarith

/-- part_000's zoom-out scale update stays in `[1, 4]`. -/
theorem nsDown_mem (s : ℚ) (_h1 : 1 ≤ s) (h4 : s ≤ 4) :
    1 ≤ (if s / (11/10) < 1 then 1 else s / (11/10)) ∧
    (if s / (11/10) < 1 then 1 else s / (11/10)) ≤ 4 := by
  have hdiv : s / (11/10) = s * (10/11) := by rw [div_eq_mul_inv]; norm_num
  rw [hdiv]
  split_ifs <;> constructor <;> linarith

/-- part_001's clamped scale update lies in `[1, 4]` for every input. -/
theorem nsClamp_mem (x : ℚ) : 1 ≤ min (max 1 x) 4 ∧ min (max 1 x) 4 ≤ 4 :=
  ⟨le_min (le_max_left 1 x) (by norm_num), min_le_right _ _⟩

/-- part_001's `zoomByFactor` always sets `scale = min(max(1, s*f), 4)`,
with or without a mounted canvas. -/
theorem zoomByFactor1_scale (canvas : Option Canvas) (bg : Option Extent)
    (v : Viewport) (f : ℚ) :
    (zoomByFactor1 canvas bg v f).scale = min (max 1 (v.scale * f)) 4 := by
  cases canvas <;> rfl

/-- C3.  Viewport invariant: from any viewport with `scale ∈ [1, 4]`,
every transition — wheel zoom of either variant, the part_000 zoom
buttons, part_001's `zoomByFactor` with any factor, and a pan move of
either variant — yields `scale ∈ [1, 4]` and a pan that satisfies the
clamp bounds for the new scale; iterating `zoomByFactor` with any factor
(for example 10, or 0.01) keeps the scale in `[1, 4]`; and `resetZoom`
sets scale 1 and pan `(0, 0)` directly, with no clamp. -/
theorem viewport_invariant
    (canvas : Option Canvas) (bg : Option Extent) (v : Viewport)
    (h1 : 1 ≤ v.scale) (h4 : v.scale ≤ 4) :
    (∀ cx cy dir, ViewportOk canvas bg (handleWheel0 canvas bg v cx cy dir)) ∧
    (∀ cx cy dir, ViewportOk canvas bg (handleWheel1 canvas bg v cx cy dir)) ∧
    ViewportOk canvas bg (zoomIn0 canvas bg v) ∧
    ViewportOk canvas bg (zoomOut0 canvas bg v) ∧
    (∀ f, ViewportOk canvas bg (zoomByFactor1 canvas bg v f)) ∧
    (∀ f n, 1 ≤ ((fun w => zoomByFactor1 canvas bg w f)^[n] v).scale ∧
            ((fun w => zoomByFactor1 canvas bg w f)^[n] v).scale ≤ 4) ∧
    (∀ (c : Ctx0) (s : State0), s.isPanning = true → ∀ cx cy now,
      (handleMouseMove0 c s cx cy now).scale = s.scale ∧
      clampPan0 (handleMouseMove0 c s cx cy now).panX
        (handleMouseMove0 c s cx cy now).panY s.scale c.canvas c.bg =
        ((handleMouseMove0 c s cx cy now).panX, (handleMouseMove0 c s cx cy now).panY)) ∧
    (∀ (c : Ctx1) (s : State1), s.isPanning = true → ∀ cx cy now,
      (handleMouseMove1 c s cx cy now).scale = s.scale ∧
      clampPan1 (handleMouseMove1 c s cx cy now).panX
        (handleMouseMove1 c s cx cy now).panY s.scale c.canvas c.bg =
        ((handleMouseMove1 c s cx cy now).panX, (handleMouseMove1 c s cx cy now).panY)) ∧
    resetZoom0 = ⟨1, 0, 0⟩ := by
  refine ⟨?_, ?_, ?_, ?_, ?_, ?_, ?_, ?_, rfl⟩
  · intro cx cy dir
    cases canvas with
    | none => exact ⟨h1, h4, rfl⟩
    | some cv =>
      cases dir with
      | true =>
        exact viewportOk_commit0 _ _ _ _ _ (nsUp_mem v.scale h1 h4).1 (nsUp_mem v.scale h1 h4).2
      | false =>
        exact viewportOk_commit0 _ _ _ _ _ (nsDown_mem v.scale h1 h4).1
          (nsDown_mem v.scale h1 h4).2
  · intro cx cy dir
    cases canvas with
    | none => exact ⟨h1, h4, rfl⟩
    | some cv =>
      exact viewportOk_commit1 _ _ _ _ _ (nsClamp_mem _).1 (nsClamp_mem _).2
  · cases canvas with
    | none => exact ⟨(nsUp_mem v.scale h1 h4).1, (nsUp_mem v.scale h1 h4).2, rfl⟩
    | some cv =>
      exact viewportOk_commit0 _ _ _ _ _ (nsUp_mem v.scale h1 h4).1 (nsUp_mem v.scale h1 h4).2
  · cases canvas with
    | none => exact ⟨(nsDown_mem v.scale h1 h4).1, (nsDown_mem v.scale h1 h4).2, rfl⟩
    | some cv =>
      exact viewportOk_commit0 _ _ _ _ _ (nsDown_mem v.scale h1 h4).1
        (nsDown_mem v.scale h1 h4).2
  · intro f
    cases canvas with
    | none => exact ⟨(nsClamp_mem _).1, (nsClamp_mem _).2, rfl⟩
    | some cv =>
      exact viewportOk_commit1 _ _ _ _ _ (nsClamp_mem _).1 (nsClamp_mem _).2
  · intro f n
    cases n with
    | zero => exact ⟨h1, h4⟩
    | succ m =>
      rw [Function.iterate_succ_apply', zoomByFactor1_scale]
      exact nsClamp_mem _
  · intro c s hP cx cy now
    unfold handleMouseMove0
    rw [if_pos hP]
    exact ⟨rfl, clampPan0_idem _ _ _ _ _⟩
  · intro c s hP cx cy now
    unfold handleMouseMove1
    rw [if_pos hP]
    exact ⟨rfl, clampPan1_idem _ _ _ _ _⟩

/-- Witness for C3 at a concrete input: viewport `scale 2, pan (100, 50)`,
canvas `400×300`, background `800×600`. -/
theorem viewport_invariant_witness :
    (1:ℚ) ≤ (Viewport.mk 2 100 50).scale ∧ (Viewport.mk 2 100 50).scale ≤ 4 ∧
    ViewportOk (some ⟨0, 0, 400, 300⟩) (some ⟨800, 600⟩)
      (zoomIn0 (some ⟨0, 0, 400, 300⟩) (some ⟨800, 600⟩) ⟨2, 100, 50⟩) :=
  ⟨by norm_num, by norm_num,
   (viewport_invariant (some ⟨0, 0, 400, 300⟩) (some ⟨800, 600⟩) ⟨2, 100, 50⟩
      (by norm_num) (by norm_num)).2.2.1⟩

/-! ### Gesture mutual exclusion -/

/-- One part_000 move while panning: stays panning, leaves the drawing flag
and the action list untouched. -/
theorem move0_pan_step (c : Ctx0) (s : State0) (cx cy now : ℚ)
    (hP : s.isPanning = true) :
    (handleMouseMove0 c s cx cy now).isPanning = true ∧
    (handleMouseMove0 c s cx cy now).isDrawing = s.isDrawing ∧
    (handleMouseMove0 c s cx cy now).drawActions = s.drawActions := by
  unfold handleMouseMove0
  rw [if_pos hP]
  exact ⟨hP, rfl, rfl⟩

/-- One part_000 move while not panning: never starts panning, and leaves
the drawing flag, scale and pan untouched. -/
theorem move0_draw_step (c : Ctx0) (s : State0) (cx cy now : ℚ)
    (hP : s.isPanning = false) :
    (handleMouseMove0 c s cx cy now).isPanning = false ∧
    (handleMouseMove0 c s cx cy now).isDrawing = s.isDrawing ∧
    (handleMouseMove0 c s cx cy now).scale = s.scale ∧
    (handleMouseMove0 c s cx cy now).panX = s.panX ∧
    (handleMouseMove0 c s cx cy now).panY = s.panY := by
  unfold handleMouseMove0
  rw [if_neg (by rw [hP]; exact Bool.false_ne_true)]
  split_ifs <;> exact ⟨hP, rfl, rfl, rfl, rfl⟩

/-- A run of part_000 moves from a panning state records no action. -/
theorem runMoves0_pan (c : Ctx0) (ms : List MoveEv) :
    ∀ s : State0, s.isPanning = true →
      (runMoves0 c s ms).isPanning = true ∧
      (runMoves0 c s ms).isDrawing = s.isDrawing ∧
      (runMoves0 c s ms).drawActions = s.drawActions := by
  induction ms with
  | nil => intro s h; exact ⟨h, rfl, rfl⟩
  | cons m rest ih =>
    intro s h
    have e : runMoves0 c s (m :: rest)
        = runMoves0 c (handleMouseMove0 c s m.cx m.cy m.now) rest := rfl
    have hstep := move0_pan_step c s m.cx m.cy m.now h
    have hrun := ih _ hstep.1
    refine ⟨?_, ?_, ?_⟩ <;> rw [e]
    · exact hrun.1
    · rw [hrun.2.1, hstep.2.1]
    · rw [hrun.2.2, hstep.2.2]

/-- A run of part_000 moves from a non-panning state changes neither pan
nor scale and never starts panning. -/
theorem runMoves0_draw (c : Ctx0) (ms : List MoveEv) :
    ∀ s : State0, s.isPanning = false →
      (runMoves0 c s ms).isPanning = false ∧
      (runMoves0 c s ms).isDrawing = s.isDrawing ∧
      (runMoves0 c s ms).scale = s.scale ∧
      (runMoves0 c s ms).panX = s.panX ∧
      (runMoves0 c s ms).panY = s.panY := by
  induction ms with
  | nil => intro s h; exact ⟨h, rfl, rfl, rfl, rfl⟩
  | cons m rest ih =>
    intro s h
    have e : runMoves0 c s (m :: rest)
        = runMoves0 c (handleMouseMove0 c s m.cx m.cy m.now) rest := rfl
    have hstep := move0_draw_step c s m.cx m.cy m.now h
    have hrun := ih _ hstep.1
    refine ⟨?_, ?_, ?_, ?_, ?_⟩ <;> rw [e]
    · exact hrun.1
    · rw [hrun.2.1, hstep.2.1]
    · rw [hrun.2.2.1, hstep.2.2.1]
    · rw [hrun.2.2.2.1, hstep.2.2.2.1]
    · rw [hrun.2.2.2.2, hstep.2.2.2.2]

/-- part_000 pointer-up while panning: only clears the panning flag. -/
theorem up0_panning (c : Ctx0) (s : State0) (cx cy now : ℚ)
    (hP : s.isPanning = true) :
    handleMouseUp0 c s cx cy now = { s with isPanning := false } := by
  unfold handleMouseUp0
  rw [if_pos hP]

/-- part_000 pointer-up while drawing: clears the drawing flag and leaves
pan, scale and the panning flag untouched. -/
theorem up0_drawing (c : Ctx0) (s : State0) (cx cy now : ℚ)
    (hP : s.isPanning = false) (hD : s.isDrawing = true) :
    (handleMouseUp0 c s cx cy now).isPanning = false ∧
    (handleMouseUp0 c s cx cy now).isDrawing = false ∧
    (handleMouseUp0 c s cx cy now).scale = s.scale ∧
    (handleMouseUp0 c s cx cy now).panX = s.panX ∧
    (handleMouseUp0 c s cx cy now).panY = s.panY := by
  unfold handleMouseUp0
  rw [if_neg (by rw [hP]; exact Bool.false_ne_true), if_pos hD]
  split_ifs <;> exact ⟨hP, rfl, rfl, rfl, rfl⟩

/-- One part_001 move while panning. -/
theorem move1_pan_step (c : Ctx1) (s : State1) (cx cy now : ℚ)
    (hP : s.isPanning = true) :
    (handleMouseMove1 c s cx cy now).isPanning = true ∧
    (handleMouseMove1 c s cx cy now).isDrawing = s.isDrawing ∧
    (handleMouseMove1 c s cx cy now).actions = s.actions := by
  unfold handleMouseMove1
  rw [if_pos hP]
  exact ⟨hP, rfl, rfl⟩

/-- One part_001 move while not panning. -/
theorem move1_draw_step (c : Ctx1) (s : State1) (cx cy now : ℚ)
    (hP : s.isPanning = false) :
    (handleMouseMove1 c s cx cy now).isPanning = false ∧
    (handleMouseMove1 c s cx cy now).isDrawing = s.isDrawing ∧
    (handleMouseMove1 c s cx cy now).scale = s.scale ∧
    (handleMouseMove1 c s cx cy now).panX = s.panX ∧
    (handleMouseMove1 c s cx cy now).panY = s.panY := by
  unfold handleMouseMove1
  rw [if_neg (by rw [hP]; exact Bool.false_ne_true)]
  split_ifs <;> exact ⟨hP, rfl, rfl, rfl, rfl⟩

/-- A run of part_001 moves from a panning state records no action. -/
theorem runMoves1_pan (c : Ctx1) (ms : List MoveEv) :
    ∀ s : State1, s.isPanning = true →
      (runMoves1 c s ms).isPanning = true ∧
      (runMoves1 c s ms).isDrawing = s.isDrawing ∧
      (runMoves1 c s ms).actions = s.actions := by
  induction ms with
  | nil => intro s h; exact ⟨h, rfl, rfl⟩
  | cons m rest ih =>
    intro s h
    have e : runMoves1 c s (m :: rest)
        = runMoves1 c (handleMouseMove1 c s m.cx m.cy m.now) rest := rfl
    have hstep := move1_pan_step c s m.cx m.cy m.now h
    have hrun := ih _ hstep.1
    refine ⟨?_, ?_, ?_⟩ <;> rw [e]
    · exact hrun.1
    · rw [hrun.2.1, hstep.2.1]
    · rw [hrun.2.2, hstep.2.2]

/-- A run of part_001 moves from a non-panning state changes neither pan
nor scale and never starts panning. -/
theorem runMoves1_draw (c : Ctx1) (ms : List MoveEv) :
    ∀ s : State1, s.isPanning = false →
      (runMoves1 c s ms).isPanning = false ∧
      (runMoves1 c s ms).isDrawing = s.isDrawing ∧
      (runMoves1 c s ms).scale = s.scale ∧
      (runMoves1 c s ms).panX = s.panX ∧
      (runMoves1 c s ms).panY = s.panY := by
  induction ms with
  | nil => intro s h; exact ⟨h, rfl, rfl, rfl, rfl⟩
  | cons m rest ih =>
    intro s h
    have e : runMoves1 c s (m :: rest)
        = runMoves1 c (handleMouseMove1 c s m.cx m.cy m.now) rest := rfl
    have hstep := move1_draw_step c s m.cx m.cy m.now h
    have hrun := ih _ hstep.1
    refine ⟨?_, ?_, ?_, ?_, ?_⟩ <;> rw [e]
    · exact hrun.1
    · rw [hrun.2.1, hstep.2.1]
    · rw [hrun.2.2.1, hstep.2.2.1]
    · rw [hrun.2.2.2.1, hstep.2.2.2.1]
    · rw [hrun.2.2.2.2, hstep.2.2.2.2]

/-- part_001 pointer-up while panning: only clears the panning flag. -/
theorem up1_panning (c : Ctx1) (s : State1) (cx cy now : ℚ)
    (hP : s.isPanning = true) :
    handleMouseUp1 c s cx cy now = { s with isPanning := false } := by
  unfold handleMouseUp1
  rw [if_pos hP]

/-- part_001 pointer-up while drawing: clears the drawing flag and leaves
pan, scale and the panning flag untouched. -/
theorem up1_drawing (c : Ctx1) (s : State1) (cx cy now : ℚ)
    (hP : s.isPanning = false) (hD : s.isDrawing = true) :
    (handleMouseUp1 c s cx cy now).isPanning = false ∧
    (handleMouseUp1 c s cx cy now).isDrawing = false ∧
    (handleMouseUp1 c s cx cy now).scale = s.scale ∧
    (handleMouseUp1 c s cx cy now).panX = s.panX ∧
    (handleMouseUp1 c s cx cy now).panY = s.panY := by
  unfold handleMouseUp1
  rw [if_neg (by rw [hP]; exact Bool.false_ne_true), if_pos hD]
  exact ⟨hP, rfl, rfl, rfl, rfl⟩

/-- The single-gesture contract for part_000 from an idle state `s`:
a gesture entered with the pan modifier is Panning throughout — it records
no drawing action in any move or at pointer-up and returns to Idle; a
gesture entered without it is Drawing throughout — it changes neither pan
nor scale and returns to Idle; and no gesture ever has the Panning and
Drawing flags set at once. -/
def GestureExclusion0 (c : Ctx0) (s : State0) : Prop :=
  (∀ (cx cy : ℚ) (ms : List MoveEv) (ux uy un : ℚ),
    let s1 := handleMouseDown0 c s cx cy true
    let s2 := runMoves0 c s1 ms
    let s3 := handleMouseUp0 c s2 ux uy un
    s1.isPanning = true ∧ s1.isDrawing = false ∧
    s2.drawActions = s.drawActions ∧ s3.drawActions = s.drawActions ∧
    s3.isPanning = false ∧ s3.isDrawing = false) ∧
  (∀ (cx cy : ℚ) (ms : List MoveEv) (ux uy un : ℚ),
    let s1 := handleMouseDown0 c s cx cy false
    let s2 := runMoves0 c s1 ms
    let s3 := handleMouseUp0 c s2 ux uy un
    s1.isDrawing = true ∧ s1.isPanning = false ∧
    s2.scale = s.scale ∧ s2.panX = s.panX ∧ s2.panY = s.panY ∧
    s3.scale = s.scale ∧ s3.panX = s.panX ∧ s3.panY = s.panY ∧
    s3.isPanning = false ∧ s3.isDrawing = false) ∧
  (∀ (ctrl : Bool) (cx cy : ℚ) (ms : List MoveEv),
    ¬((runMoves0 c (handleMouseDown0 c s cx cy ctrl) ms).isPanning = true ∧
      (runMoves0 c (handleMouseDown0 c s cx cy ctrl) ms).isDrawing = true))

/-- The single-gesture contract for part_001 from an idle state `s` with
the radial menu closed, for primary-button gestures. -/
def GestureExclusion1 (c : Ctx1) (s : State1) : Prop :=
  (∀ (cx cy : ℚ) (ms : List MoveEv) (ux uy un : ℚ),
    let s1 := handleMouseDown1 c s cx cy 0 true
    let s2 := runMoves1 c s1 ms
    let s3 := handleMouseUp1 c s2 ux uy un
    s1.isPanning = true ∧ s1.isDrawing = false ∧
    s2.actions = s.actions ∧ s3.actions = s.actions ∧
    s3.isPanning = false ∧ s3.isDrawing = false) ∧
  (∀ (cx cy : ℚ) (ms : List MoveEv) (ux uy un : ℚ),
    let s1 := handleMouseDown1 c s cx cy 0 false
    let s2 := runMoves1 c s1 ms
    let s3 := handleMouseUp1 c s2 ux uy un
    s1.isDrawing = true ∧ s1.isPanning = false ∧
    s2.scale = s.scale ∧ s2.panX = s.panX ∧ s2.panY = s.panY ∧
    s3.scale = s.scale ∧ s3.panX = s.panX ∧ s3.panY = s.panY ∧
    s3.isPanning = false ∧ s3.isDrawing = false) ∧
  (∀ (ctrl : Bool) (cx cy : ℚ) (ms : List MoveEv),
    ¬((runMoves1 c (handleMouseDown1 c s cx cy 0 ctrl) ms).isPanning = true ∧
      (runMoves1 c (handleMouseDown1 c s cx cy 0 ctrl) ms).isDrawing = true))

/-- C5.  Gesture mutual exclusion: in both variants, starting from an idle
state (and, for part_001, the menu closed and the primary button), a
gesture is a single pass Idle → (Panning | Drawing) → Idle; a Panning
gesture records no drawing action during its moves or its pointer-up, a
Drawing gesture changes neither pan nor scale, and the two flags are never
set simultaneously. -/
theorem gesture_mutual_exclusion :
    (∀ (c : Ctx0) (s : State0), c.mounted = true → s.isPanning = false →
        s.isDrawing = false → GestureExclusion0 c s) ∧
    (∀ (c : Ctx1) (s : State1), s.menuOpen = false → s.isPanning = false →
        s.isDrawing = false → GestureExclusion1 c s) := by
  constructor
  · intro c s hm hP hD
    refine ⟨?_, ?_, ?_⟩
    · intro cx cy ms ux uy un
      dsimp only
      have hdown : handleMouseDown0 c s cx cy true
          = { s with isPanning := true, panStartX := cx, panStartY := cy } := by
        unfold handleMouseDown0
        rw [hm]
        rfl
      rw [hdown]
      have hrun := runMoves0_pan c ms
        { s with isPanning := true, panStartX := cx, panStartY := cy } rfl
      have hup := up0_panning c _ ux uy un hrun.1
      refine ⟨rfl, hD, ?_, ?_, ?_, ?_⟩
      · rw [hrun.2.2]
      · rw [hup, hrun.2.2]
      · rw [hup]
      · rw [hup]
        show (runMoves0 c _ ms).isDrawing = false
        rw [hrun.2.1]
        exact hD
    · intro cx cy ms ux uy un
      dsimp only
      have hdown : handleMouseDown0 c s cx cy false
          = { s with startX := (screenToWorld s.scale s.panX s.panY c.canvas cx cy).1,
                     startY := (screenToWorld s.scale s.panX s.panY c.canvas cx cy).2,
                     isDrawing := true } := by
        unfold handleMouseDown0
        rw [hm]
        rfl
      rw [hdown]
      have hrun := runMoves0_draw c ms
        { s with startX := (screenToWorld s.scale s.panX s.panY c.canvas cx cy).1,
                 startY := (screenToWorld s.scale s.panX s.panY c.canvas cx cy).2,
                 isDrawing := true } hP
      have hup := up0_drawing c _ ux uy un hrun.1 hrun.2.1
      exact ⟨rfl, hP, hrun.2.2.1, hrun.2.2.2.1, hrun.2.2.2.2,
             hup.2.2.1.trans hrun.2.2.1, hup.2.2.2.1.trans hrun.2.2.2.1,
             hup.2.2.2.2.trans hrun.2.2.2.2, hup.1, hup.2.1⟩
    · intro ctrl cx cy ms hcontra
      cases ctrl with
      | true =>
        have hdown : handleMouseDown0 c s cx cy true
            = { s with isPanning := true, panStartX := cx, panStartY := cy } := by
          unfold handleMouseDown0
          rw [hm]
          rfl
        rw [hdown] at hcontra
        have hrun := runMoves0_pan c ms
          { s with isPanning := true, panStartX := cx, panStartY := cy } rfl
        have hfalse : (runMoves0 c
            { s with isPanning := true, panStartX := cx, panStartY := cy } ms).isDrawing
            = false := hrun.2.1.trans hD
        rw [hcontra.2] at hfalse
        exact Bool.noConfusion hfalse
      | false =>
        have hdown : handleMouseDown0 c s cx cy false
            = { s with startX := (screenToWorld s.scale s.panX s.panY c.canvas cx cy).1,
                       startY := (screenToWorld s.scale s.panX s.panY c.canvas cx cy).2,
                       isDrawing := true } := by
          unfold handleMouseDown0
          rw [hm]
          rfl
        rw [hdown] at hcontra
        have hrun := runMoves0_draw c ms
          { s with startX := (screenToWorld s.scale s.panX s.panY c.canvas cx cy).1,
                   startY := (screenToWorld s.scale s.panX s.panY c.canvas cx cy).2,
                   isDrawing := true } hP
        rw [hcontra.1] at hrun
        exact Bool.noConfusion hrun.1
  · intro c s hmenu hP hD
    refine ⟨?_, ?_, ?_⟩
    · intro cx cy ms ux uy un
      dsimp only
      have hdown : handleMouseDown1 c s cx cy 0 true
          = { s with isPanning := true, panStartX := cx, panStartY := cy } := by
        unfold handleMouseDown1
        rw [if_neg (by norm_num), if_neg (by rw [hmenu]; exact Bool.false_ne_true)]
        rfl
      rw [hdown]
      have hrun := runMoves1_pan c ms
        { s with isPanning := true, panStartX := cx, panStartY := cy } rfl
      have hup := up1_panning c _ ux uy un hrun.1
      refine ⟨rfl, hD, ?_, ?_, ?_, ?_⟩
      · rw [hrun.2.2]
      · rw [hup, hrun.2.2]
      · rw [hup]
      · rw [hup]
        show (runMoves1 c _ ms).isDrawing = false
        rw [hrun.2.1]
        exact hD
    · intro cx cy ms ux uy un
      dsimp only
      have hdown : handleMouseDown1 c s cx cy 0 false
          = { s with isDrawing := true,
                     drawStartX := (screenToWorld s.scale s.panX s.panY c.canvas cx cy).1,
                     drawStartY := (screenToWorld s.scale s.panX s.panY c.canvas cx cy).2 } := by
        unfold handleMouseDown1
        rw [if_neg (by norm_num), if_neg (by rw [hmenu]; exact Bool.false_ne_true)]
        rfl
      rw [hdown]
      have hrun := runMoves1_draw c ms
        { s with isDrawing := true,
                 drawStartX := (screenToWorld s.scale s.panX s.panY c.canvas cx cy).1,
                 drawStartY := (screenToWorld s.scale s.panX s.panY c.canvas cx cy).2 } hP
      have hup := up1_drawing c _ ux uy un hrun.1 hrun.2.1
      exact ⟨rfl, hP, hrun.2.2.1, hrun.2.2.2.1, hrun.2.2.2.2,
             hup.2.2.1.trans hrun.2.2.1, hup.2.2.2.1.trans hrun.2.2.2.1,
             hup.2.2.2.2.trans hrun.2.2.2.2, hup.1, hup.2.1⟩
    · intro ctrl cx cy ms hcontra
      cases ctrl with
      | true =>
        have hdown : handleMouseDown1 c s cx cy 0 true
            = { s with isPanning := true, panStartX := cx, panStartY := cy } := by
          unfold handleMouseDown1
          rw [if_neg (by norm_num), if_neg (by rw [hmenu]; exact Bool.false_ne_true)]
          rfl
        rw [hdown] at hcontra
        have hrun := runMoves1_pan c ms
          { s with isPanning := true, panStartX := cx, panStartY := cy } rfl
        have hfalse : (runMoves1 c
            { s with isPanning := true, panStartX := cx, panStartY := cy } ms).isDrawing
            = false := hrun.2.1.trans hD
        rw [hcontra.2] at hfalse
        exact Bool.noConfusion hfalse
      | false =>
        have hdown : handleMouseDown1 c s cx cy 0 false
            = { s with isDrawing := true,
                       drawStartX := (screenToWorld s.scale s.panX s.panY c.canvas cx cy).1,
                       drawStartY := (screenToWorld s.scale s.panX s.panY c.canvas cx cy).2 } := by
          unfold handleMouseDown1
          rw [if_neg (by norm_num), if_neg (by rw [hmenu]; exact Bool.false_ne_true)]
          rfl
        rw [hdown] at hcontra
        have hrun := runMoves1_draw c ms
          { s with isDrawing := true,
                   drawStartX := (screenToWorld s.scale s.panX s.panY c.canvas cx cy).1,
                   drawStartY := (screenToWorld s.scale s.panX s.panY c.canvas cx cy).2 } hP
        rw [hcontra.1] at hrun
        exact Bool.noConfusion hrun.1

/-- Concrete part_000 settings for the gesture witness. -/
def exCtx0 : Ctx0 :=
  ⟨true, some ⟨0, 0, 400, 300⟩, some ⟨800, 600⟩, "user-1", "Ann", "#ff0000",
   Tool.pen, 10, "X", "10s"⟩

/-- Concrete part_000 idle state for the gesture witness. -/
def exState0 : State0 := ⟨1, 0, 0, false, 0, 0, false, 0, 0, []⟩

/-- Concrete part_001 settings for the gesture witness. -/
def exCtx1 : Ctx1 :=
  ⟨some ⟨0, 0, 400, 300⟩, some ⟨800, 600⟩, "u2", "Bob", "#22d3ee",
   Tool.arrow, 5, "X", "permanent"⟩

/-- Concrete part_001 idle state for the gesture witness. -/
def exState1 : State1 := ⟨1, 0, 0, false, 0, 0, false, 0, 0, [], false, 0, 0⟩

/-- Witness for C5 at the concrete idle states. -/
theorem gesture_mutual_exclusion_witness :
    exCtx0.mounted = true ∧ exState0.isPanning = false ∧ exState0.isDrawing = false ∧
    exState1.menuOpen = false ∧ exState1.isPanning = false ∧ exState1.isDrawing = false ∧
    GestureExclusion0 exCtx0 exState0 ∧ GestureExclusion1 exCtx1 exState1 :=
  ⟨rfl, rfl, rfl, rfl, rfl, rfl,
   gesture_mutual_exclusion.1 exCtx0 exState0 rfl rfl rfl,
   gesture_mutual_exclusion.2 exCtx1 exState1 rfl rfl rfl⟩

/-! ### Expiry sweeper claims -/

/-- A concrete action whose `expireAt` is the falsy number `0`. -/
def exActZero : DrawAction :=
  ⟨"u0", "Cap", "#000000", Tool.pen, 3, ⟨0, 0⟩, ⟨1, 1⟩, none, ExpireAt.fin 0⟩

/-- Counterexample to C6 as stated: at `now = 5` this action's finite
`expireAt = 0` satisfies `expireAt ≤ now` and is not infinity, so the
claimed strict rule would drop it — but `!action.expireAt` is true for the
falsy number `0`, so the sweeper keeps it. -/
theorem expiry_strict_counterexample :
    exActZero.expireAt = ExpireAt.fin 0 ∧ ((0:ℚ) ≤ 5) ∧
    ExpireAt.fin 0 ≠ ExpireAt.inf ∧
    sweepTick [exActZero] 5 = [exActZero] :=
  ⟨rfl, by norm_num, by simp, rfl⟩

/-- C6 (amended).  A sweeper tick keeps an action iff its `expireAt` is
absent, `Infinity`, the falsy number `0`, or strictly above `now`; for a
present, nonzero `expireAt` the comparison is exactly the strict
`now < expireAt`; and an action created with a 10-second fade at time
`T ≥ 0` is kept at `T+9999` and dropped at `T+10001`. -/
theorem expiry_sweep_amended :
    (∀ (a : DrawAction) (now : ℚ),
      keepAction a now = true ↔
        a.expireAt = ExpireAt.undef ∨ a.expireAt = ExpireAt.inf ∨
        a.expireAt = ExpireAt.fin 0 ∨ ∃ t, a.expireAt = ExpireAt.fin t ∧ now < t) ∧
    (∀ (l : List DrawAction) (now : ℚ) (a : DrawAction),
      a ∈ sweepTick l now ↔ a ∈ l ∧ keepAction a now = true) ∧
    (∀ (T : ℚ) (a : DrawAction), 0 ≤ T → a.expireAt = ExpireAt.fin (T + 10000) →
      keepAction a (T + 9999) = true ∧ keepAction a (T + 10001) = false) := by
  refine ⟨?_, ?_, ?_⟩
  · intro a now
    unfold keepAction
    cases h : a.expireAt with
    | undef => simp [h]
    | inf => simp [h]
    | fin t => simp [h]
  · intro l now a
    simp [sweepTick, List.mem_filter]
  · intro T a hT h
    unfold keepAction
    rw [h]
    constructor
    · show (decide (T + 10000 = 0) || decide (T + 9999 < T + 10000)) = true
      have h2 : decide (T + 9999 < T + 10000) = true := decide_eq_true (by linarith)
      rw [h2, Bool.or_true]
    · show (decide (T + 10000 = 0) || decide (T + 10001 < T + 10000)) = false
      have h1 : decide (T + 10000 = 0) = false := decide_eq_false (by intro he; linarith)
      have h2 : decide (T + 10001 < T + 10000) = false := decide_eq_false (by intro he; linarith)
      rw [h1, h2]
      rfl

/-- A concrete action created with a 10-second fade at `T = 0`. -/
def exActTen : DrawAction :=
  ⟨"u0", "Cap", "#000000", Tool.arrow, 3, ⟨0, 0⟩, ⟨1, 1⟩, some "X", ExpireAt.fin (0 + 10000)⟩

/-- Witness for the amended C6: the 10-second-fade action at `T = 0`. -/
theorem expiry_sweep_amended_witness :
    (0:ℚ) ≤ 0 ∧ exActTen.expireAt = ExpireAt.fin (0 + 10000) ∧
    (keepAction exActTen ((0:ℚ) + 9999) = true ∧ keepAction exActTen ((0:ℚ) + 10001) = false) :=
  ⟨le_refl 0, rfl, expiry_sweep_amended.2.2 0 exActTen (le_refl 0) rfl⟩

/-- C10.  An action whose `expireAt` field is absent is kept by the
survival test at every clock value, hence survives every sweeper tick,
exactly like a permanent action. -/
theorem undef_expiry_kept :
    ∀ (a : DrawAction) (now : ℚ) (l : List DrawAction),
      a.expireAt = ExpireAt.undef →
      keepAction a now = true ∧ (a ∈ l → a ∈ sweepTick l now) := by
  intro a now l h
  have hk : keepAction a now = true := by unfold keepAction; rw [h]
  exact ⟨hk, fun hmem => List.mem_filter.mpr ⟨hmem, hk⟩⟩

/-- A concrete action with no `expireAt` field. -/
def exActUndef : DrawAction :=
  ⟨"u0", "Cap", "#000000", Tool.circle, 3, ⟨0, 0⟩, ⟨1, 1⟩, none, ExpireAt.undef⟩

/-- Witness for C10 at a concrete action and clock. -/
theorem undef_expiry_kept_witness :
    exActUndef.expireAt = ExpireAt.undef ∧
    (keepAction exActUndef 12345 = true ∧
      (exActUndef ∈ [exActUndef] → exActUndef ∈ sweepTick [exActUndef] 12345)) :=
  ⟨rfl, undef_expiry_kept exActUndef 12345 [exActUndef] rfl⟩

/-! ### Undo -/

/-- C7.  Undo removes exactly the most-recently-appended action: Backspace
(with any modifiers), Ctrl+z and Cmd+Z all drop the last list element;
part_001's handler is the same operation as part_000's; `dropLast`
removes exactly the last appended element, and after appending `a, b, d`
one undo yields the list ending in `a, b`. -/
theorem undo_removes_last :
    (∀ (l : List DrawAction) (ct mt : Bool),
      undoKeyDown0 ⟨"Backspace", ct, mt⟩ l = l.dropLast) ∧
    (∀ (l : List DrawAction) (mt : Bool),
      undoKeyDown0 ⟨"z", true, mt⟩ l = l.dropLast) ∧
    (∀ (l : List DrawAction) (ct : Bool),
      undoKeyDown0 ⟨"Z", ct, true⟩ l = l.dropLast) ∧
    (∀ (e : KeyEvent) (l : List DrawAction), undoKeyDown1 e l = undoKeyDown0 e l) ∧
    (∀ (l : List DrawAction) (a : DrawAction), (l ++ [a]).dropLast = l) ∧
    (∀ (l : List DrawAction) (a b d : DrawAction),
      undoKeyDown0 ⟨"Backspace", false, false⟩ (l ++ [a, b, d]) = l ++ [a, b]) := by
  refine ⟨?_, ?_, ?_, fun e l => rfl, ?_, ?_⟩
  · intro l ct mt
    unfold undoKeyDown0
    rw [if_pos rfl]
  · intro l mt
    show (if ("z" : String) = "Backspace" then l.dropLast
      else if (true || mt) && (jsToLower "z" == "z") then l.dropLast else l) = l.dropLast
    rw [if_neg (by decide), if_pos (by simp only [Bool.true_or, Bool.true_and]; decide)]
  · intro l ct
    show (if ("Z" : String) = "Backspace" then l.dropLast
      else if (ct || true) && (jsToLower "Z" == "z") then l.dropLast else l) = l.dropLast
    rw [if_neg (by decide), if_pos (by simp only [Bool.or_true, Bool.true_and]; decide)]
  · intro l a
    exact List.dropLast_concat
  · intro l a b d
    unfold undoKeyDown0
    rw [if_pos rfl]
    have he : l ++ [a, b, d] = (l ++ [a, b]) ++ [d] := by simp
    rw [he, List.dropLast_concat]

/-! ### Arrow rendering claims -/

/-- A concrete trig oracle (the properties do not depend on its values). -/
def exTrig : TrigOracle := ⟨fun _ _ => 0, fun _ => 1, fun _ => 0, 3⟩

/-- A concrete degenerate arrow action: start and end coincide. -/
def exArrowZero : DrawAction :=
  ⟨"u0", "Cap", "#ff0000", Tool.arrow, 2, ⟨0, 0⟩, ⟨0, 0⟩, none, ExpireAt.inf⟩

/-- Counterexample to C8 as stated: part_001's `drawArrow` has no
degenerate-case check — on an arrow of distance `0 < 1.5·lineWidth` it
still emits a shaft (a line) before the head. -/
theorem arrow_degenerate_counterexample :
    exArrowZero.start = exArrowZero.endPt ∧
    (0:ℚ) < exArrowZero.lineWidth * (3/2) ∧
    List.map isShaft (drawArrow1 exTrig exArrowZero) = [true, false] :=
  ⟨rfl, by norm_num [exArrowZero], rfl⟩

/-- C8 (amended).  part_000's `drawArrow`: for every arrow action with
positive line width whose start-end distance is below the pullback
distance `1.5·lineWidth` (distance 0 included), the shaft is skipped and
exactly one shape — the filled head triangle with apex at `end` — is
drawn, with no exception (the function is total); part_001's `drawArrow`
performs no such check and always draws a shaft followed by the head. -/
theorem arrow_degenerate_amended :
    (∀ (T : TrigOracle) (a : DrawAction),
      0 < a.lineWidth →
      (a.endPt.x - a.start.x) * (a.endPt.x - a.start.x) +
          (a.endPt.y - a.start.y) * (a.endPt.y - a.start.y)
        < (a.lineWidth * (3/2)) * (a.lineWidth * (3/2)) →
      drawArrow0 T a =
        [drawArrowHead0 T a.endPt.x a.endPt.y
          (T.atan2 (a.endPt.y - a.start.y) (a.endPt.x - a.start.x)) a.color
          (a.lineWidth * 3)] ∧
      List.map isShaft (drawArrow0 T a) = [false] ∧
      triApex (drawArrowHead0 T a.endPt.x a.endPt.y
          (T.atan2 (a.endPt.y - a.start.y) (a.endPt.x - a.start.x)) a.color
          (a.lineWidth * 3))
        = some ⟨a.endPt.x, a.endPt.y⟩) ∧
    (∀ (T : TrigOracle) (a : DrawAction),
      List.map isShaft (drawArrow1 T a) = [true, false]) := by
  constructor
  · intro T a hlw hdist
    unfold drawArrow0
    rw [if_pos ⟨by linarith, hdist⟩]
    exact ⟨rfl, rfl, rfl⟩
  · intro T a
    rfl

/-- Witness for the amended C8 at the concrete degenerate arrow. -/
theorem arrow_degenerate_amended_witness :
    (0:ℚ) < exArrowZero.lineWidth ∧
    ((exArrowZero.endPt.x - exArrowZero.start.x) * (exArrowZero.endPt.x - exArrowZero.start.x) +
        (exArrowZero.endPt.y - exArrowZero.start.y) * (exArrowZero.endPt.y - exArrowZero.start.y)
      < (exArrowZero.lineWidth * (3/2)) * (exArrowZero.lineWidth * (3/2))) ∧
    (drawArrow0 exTrig exArrowZero =
        [drawArrowHead0 exTrig exArrowZero.endPt.x exArrowZero.endPt.y
          (exTrig.atan2 (exArrowZero.endPt.y - exArrowZero.start.y)
            (exArrowZero.endPt.x - exArrowZero.start.x)) exArrowZero.color
          (exArrowZero.lineWidth * 3)] ∧
      List.map isShaft (drawArrow0 exTrig exArrowZero) = [false] ∧
      triApex (drawArrowHead0 exTrig exArrowZero.endPt.x exArrowZero.endPt.y
          (exTrig.atan2 (exArrowZero.endPt.y - exArrowZero.start.y)
            (exArrowZero.endPt.x - exArrowZero.start.x)) exArrowZero.color
          (exArrowZero.lineWidth * 3))
        = some ⟨exArrowZero.endPt.x, exArrowZero.endPt.y⟩) :=
  ⟨by norm_num [exArrowZero], by norm_num [exArrowZero],
   arrow_degenerate_amended.1 exTrig exArrowZero (by norm_num [exArrowZero])
     (by norm_num [exArrowZero])⟩

end TacticalMap
